import Mathlib

/-!
Verification of the media-gateway generation-job orchestration engine.

This file gives a shallow embedding of the core of the repository:
the three provider adapters (src/backend/src/providers/sora.py, runway.py,
kling.py), the polling orchestrator (process_video_generation in
src/backend/src/api/routes.py), the cost model
(src/backend/src/services/cost_calculator.py) and the credential cipher
wrapper (src/backend/src/services/encryption.py).

Python values crossing the embedded code are modelled as follows: JSON
bodies as an inductive Json type, floats as rationals, datetimes as
rationals, optional values as Option, exceptions as Except or as explicit
branches where the source catches them.  The HTTP transport underneath an
adapter call is a parameter (HttpResult) ranging over all behaviours the
source distinguishes: a 2xx response whose body may or may not parse as
JSON, a non-2xx response (raise_for_status raises HTTPStatusError), and
any other exception (timeout, connection failure).  Database commits are
modelled by threading the job record and recording each committed
snapshot in a trace.
-/

/-- JSON values as delivered by the provider HTTP APIs. -/
inductive Json where
  | null : Json
  | jbool : Bool → Json
  | num : ℚ → Json
  | str : String → Json
  | arr : List Json → Json
  | obj : List (String × Json) → Json

/-- Python dict.get on a JSON object: first binding of the key, if any. -/
def jlookup : List (String × Json) → String → Option Json
  | [], _ => none
  | (k, v) :: rest, key => if k = key then some v else jlookup rest key

/-- Python str() of a JSON value.  Strings render as themselves, None as
"None", booleans as "True"/"False".  The rendering of numbers and nested
containers is a display approximation; no theorem below depends on it. -/
def pyStrOfJson : Json → String
  | .null => "None"
  | .jbool true => "True"
  | .jbool false => "False"
  | .str s => s
  | .num q => if q.den = 1 then toString q.num else toString q.num ++ "." ++ toString q.den
  | .arr _ => "<list>"
  | .obj _ => "<dict>"

/-- Pydantic v1 coercion of a value into a required str field: strings pass
through, numbers and booleans are stringified, anything else raises a
ValidationError (returned as the error branch here). -/
def pyCoerceStr : Json → Except String String
  | .str s => .ok s
  | .num q => .ok (pyStrOfJson (.num q))
  | .jbool b => .ok (pyStrOfJson (.jbool b))
  | _ => .error "validation error: str type expected"

/-- Pydantic v1 coercion into an Optional[str] field: absent and None map
to none. -/
def pyCoerceOptStr : Option Json → Except String (Option String)
  | none => .ok none
  | some .null => .ok none
  | some v => (pyCoerceStr v).map some

/-- Python str.split(sep) for a single-character separator, over char
lists. -/
def splitOnChar (sep : Char) : List Char → List (List Char)
  | [] => [[]]
  | c :: rest =>
    let r := splitOnChar sep rest
    if c = sep then [] :: r
    else match r with
      | [] => [[c]]
      | h :: t => (c :: h) :: t

/-- Leading and trailing spaces removed, as Python int()/float() do before
parsing. -/
def stripSpaces (cs : List Char) : List Char :=
  ((cs.dropWhile (· = ' ')).reverse.dropWhile (· = ' ')).reverse

/-- Every character is a decimal digit. -/
def allDigits (cs : List Char) : Bool := cs.all (·.isDigit)

/-- Numeric value of a decimal digit string (caller checks allDigits). -/
def digitsVal (cs : List Char) : Nat := cs.foldl (fun a c => a * 10 + (c.toNat - 48)) 0

/-- Python int(s): optional sign, then one or more digits; ValueError
(none) otherwise. -/
def pyIntOfChars (cs : List Char) : Option Int :=
  match stripSpaces cs with
  | '-' :: rest => if rest ≠ [] ∧ allDigits rest then some (-(digitsVal rest : Int)) else none
  | '+' :: rest => if rest ≠ [] ∧ allDigits rest then some ((digitsVal rest : Int)) else none
  | rest => if rest ≠ [] ∧ allDigits rest then some ((digitsVal rest : Int)) else none

/-- Python float(s) restricted to plain decimal notation (optional sign,
digits, optional fractional part); ValueError (none) otherwise. -/
def pyFloatUnsigned (cs : List Char) : Option ℚ :=
  match splitOnChar '.' cs with
  | [a] => if a ≠ [] ∧ allDigits a then some ((digitsVal a : ℚ)) else none
  | [a, b] =>
    if (a ≠ [] ∨ b ≠ []) ∧ allDigits a ∧ allDigits b then
      some ((digitsVal a : ℚ) + (digitsVal b : ℚ) / (10 : ℚ) ^ b.length)
    else none
  | _ => none

/-- Python float(s) with sign and space stripping. -/
def pyFloatOfChars (cs : List Char) : Option ℚ :=
  match stripSpaces cs with
  | '-' :: rest => (pyFloatUnsigned rest).map Neg.neg
  | '+' :: rest => pyFloatUnsigned rest
  | rest => pyFloatUnsigned rest

/-- Python float(v) on a JSON-valued argument: numbers pass through, bools
become 0/1, strings are parsed, None/dict/list raise (none). -/
def pyFloatOfJson : Json → Option ℚ
  | .num q => some q
  | .jbool b => some (cond b 1 0)
  | .str s => pyFloatOfChars s.toList
  | _ => none

/-- Python str(x) for an optional int (str(None) = "None"). -/
def pyStrOfOptInt : Option Int → String
  | some n => toString n
  | none => "None"

/-- The normalized submit/poll value object crossing back from an adapter
(class VideoResponse in src/backend/src/providers/base.py).  metadata is
the parsed JSON dict of the provider response when one was obtained. -/
structure VideoResponse where
  job_id : String
  status : String
  video_url : Option String := none
  error : Option String := none
  metadata : Option (List (String × Json)) := none

/-- The normalized request value object (class VideoRequest in
src/backend/src/providers/base.py).  aspect stands for the source field
aspect_ratio. -/
structure VideoRequest where
  prompt : String
  model : String := "sora-2"
  duration : Option Int := some 5
  aspect : Option String := some "16:9"
  seed : Option Int := none
  fps : Option Int := none
  resolution : Option String := none
  deriving DecidableEq

/-- Behaviour of one HTTP call underneath an adapter method: a 2xx
response whose body parses to JSON or not, a non-2xx response (with
status code, body text, and optionally JSON-parseable body), or any other
exception with its message (timeout, connection failure, and so on). -/
inductive HttpResult where
  | success : Except String Json → HttpResult
  | httpError : Nat → String → Except String Json → HttpResult
  | exn : String → HttpResult

namespace SoraProvider

def BASE_URL : String := "https://api.openai.com/v1"

/-- The fixed OpenAI status table in SoraProvider.check_status. -/
def status_map (s : String) : Option String :=
  if s = "queued" then some "processing"
  else if s = "processing" then some "processing"
  else if s = "completed" then some "completed"
  else if s = "failed" then some "failed"
  else if s = "cancelled" then some "failed"
  else none

/-- Error detail extraction shared by SoraProvider.generate_video and
check_status: try the OpenAI error envelope, fall back to the raw body
text on any parse failure or missing field. -/
def error_detail (text : String) (body : Except String Json) : String :=
  match body with
  | .ok (.obj fs) =>
    match jlookup fs "error" with
    | some (.obj efs) =>
      match jlookup efs "message" with
      | some v => pyStrOfJson v
      | none => text
    | _ => text
  | _ => text

/-- SoraProvider.check_status given the transport behaviour of the status
GET.  Note that status_map.get(status, status) falls back to the NATIVE
status value when it is not in the table. -/
def check_status (h : HttpResult) (job_id : String) : VideoResponse :=
  match h with
  | .exn msg => { job_id := job_id, status := "failed", error := some msg }
  | .httpError code text body =>
    { job_id := job_id, status := "failed",
      error := some ("HTTP " ++ toString code ++ ": " ++ error_detail text body) }
  | .success (.error msg) => { job_id := job_id, status := "failed", error := some msg }
  | .success (.ok (.obj fs)) =>
    let statusJ := (jlookup fs "status").getD (.str "processing")
    let mapped : Json :=
      match statusJ with
      | .str s => .str ((status_map s).getD s)
      | v => v
    match pyCoerceStr mapped with
    | .error e => { job_id := job_id, status := "failed", error := some e }
    | .ok ms =>
      { job_id := job_id, status := ms,
        video_url :=
          match mapped with
          | .str s =>
            if s = "completed" then some (BASE_URL ++ "/videos/" ++ job_id ++ "/content")
            else none
          | _ => none,
        metadata := some fs }
  | .success (.ok _) =>
    { job_id := job_id, status := "failed", error := some "AttributeError: no attribute get" }

/-- SoraProvider.generate_video given the transport behaviour of the
submission POST. -/
def generate_video (h : HttpResult) (_req : VideoRequest) : VideoResponse :=
  match h with
  | .exn msg => { job_id := "", status := "failed", error := some msg }
  | .httpError code text body =>
    { job_id := "", status := "failed",
      error := some ("HTTP " ++ toString code ++ ": " ++ error_detail text body) }
  | .success (.error msg) => { job_id := "", status := "failed", error := some msg }
  | .success (.ok (.obj fs)) =>
    match jlookup fs "id" with
    | some v =>
      match pyCoerceStr v with
      | .ok idStr => { job_id := idStr, status := "processing", metadata := some fs }
      | .error e => { job_id := "", status := "failed", error := some e }
    | none => { job_id := "", status := "failed", error := some "validation error: str type expected" }
  | .success (.ok _) =>
    { job_id := "", status := "failed", error := some "AttributeError: no attribute get" }

end SoraProvider

namespace RunwayProvider

def BASE_URL : String := "https://api.runwayml.com/v1"

/-- The fixed Runway status table in RunwayProvider.check_status. -/
def status_map (s : String) : Option String :=
  if s = "pending" then some "processing"
  else if s = "processing" then some "processing"
  else if s = "succeeded" then some "completed"
  else if s = "failed" then some "failed"
  else none

/-- status_map.get(data.get("status"), "processing"): a missing or
non-string native status, or one outside the table, defaults to
"processing". -/
def statusFromJson : Option Json → String
  | some (.str s) => (status_map s).getD "processing"
  | _ => "processing"

/-- RunwayProvider.check_status given the transport behaviour of the
status GET. -/
def check_status (h : HttpResult) (job_id : String) : VideoResponse :=
  match h with
  | .exn msg => { job_id := job_id, status := "failed", error := some msg }
  | .httpError code text _body =>
    { job_id := job_id, status := "failed",
      error := some ("HTTP " ++ toString code ++ ": " ++ text) }
  | .success (.error msg) => { job_id := job_id, status := "failed", error := some msg }
  | .success (.ok (.obj fs)) =>
    let st := statusFromJson (jlookup fs "status")
    if st = "completed" then
      match jlookup fs "output" with
      | none => { job_id := job_id, status := st, video_url := none, metadata := some fs }
      | some (.obj ofs) =>
        match pyCoerceOptStr (jlookup ofs "url") with
        | .ok u => { job_id := job_id, status := st, video_url := u, metadata := some fs }
        | .error e => { job_id := job_id, status := "failed", error := some e }
      | some _ =>
        { job_id := job_id, status := "failed", error := some "AttributeError: no attribute get" }
    else { job_id := job_id, status := st, metadata := some fs }
  | .success (.ok _) =>
    { job_id := job_id, status := "failed", error := some "AttributeError: no attribute get" }

/-- RunwayProvider.generate_video given the transport behaviour of the
submission POST. -/
def generate_video (h : HttpResult) (_req : VideoRequest) : VideoResponse :=
  match h with
  | .exn msg => { job_id := "", status := "failed", error := some msg }
  | .httpError code text _body =>
    { job_id := "", status := "failed",
      error := some ("HTTP " ++ toString code ++ ": " ++ text) }
  | .success (.error msg) => { job_id := "", status := "failed", error := some msg }
  | .success (.ok (.obj fs)) =>
    match jlookup fs "id" with
    | some v =>
      match pyCoerceStr v with
      | .ok idStr => { job_id := idStr, status := "processing", metadata := some fs }
      | .error e => { job_id := "", status := "failed", error := some e }
    | none => { job_id := "", status := "failed", error := some "validation error: str type expected" }
  | .success (.ok _) =>
    { job_id := "", status := "failed", error := some "AttributeError: no attribute get" }

end RunwayProvider

namespace KlingProvider

def BASE_URL : String := "https://api.klingai.com/v1"

/-- The fixed Kling status table in KlingProvider.check_status. -/
def status_map (s : String) : Option String :=
  if s = "pending" then some "processing"
  else if s = "running" then some "processing"
  else if s = "success" then some "completed"
  else if s = "failed" then some "failed"
  else none

/-- status_map.get(data.get("task_status"), "processing"). -/
def statusFromJson : Option Json → String
  | some (.str s) => (status_map s).getD "processing"
  | _ => "processing"

/-- KlingProvider.check_status given the transport behaviour of the
status GET. -/
def check_status (h : HttpResult) (job_id : String) : VideoResponse :=
  match h with
  | .exn msg => { job_id := job_id, status := "failed", error := some msg }
  | .httpError code text _body =>
    { job_id := job_id, status := "failed",
      error := some ("HTTP " ++ toString code ++ ": " ++ text) }
  | .success (.error msg) => { job_id := job_id, status := "failed", error := some msg }
  | .success (.ok (.obj fs)) =>
    let st := statusFromJson (jlookup fs "task_status")
    if st = "completed" then
      match jlookup fs "task_result" with
      | none => { job_id := job_id, status := st, video_url := none, metadata := some fs }
      | some (.obj rfs) =>
        match pyCoerceOptStr (jlookup rfs "video_url") with
        | .ok u => { job_id := job_id, status := st, video_url := u, metadata := some fs }
        | .error e => { job_id := job_id, status := "failed", error := some e }
      | some _ =>
        { job_id := job_id, status := "failed", error := some "AttributeError: no attribute get" }
    else { job_id := job_id, status := st, metadata := some fs }
  | .success (.ok _) =>
    { job_id := job_id, status := "failed", error := some "AttributeError: no attribute get" }

/-- KlingProvider.generate_video given the transport behaviour of the
submission POST.  job_id is data.get("task_id", data.get("id")). -/
def generate_video (h : HttpResult) (_req : VideoRequest) : VideoResponse :=
  match h with
  | .exn msg => { job_id := "", status := "failed", error := some msg }
  | .httpError code text _body =>
    { job_id := "", status := "failed",
      error := some ("HTTP " ++ toString code ++ ": " ++ text) }
  | .success (.error msg) => { job_id := "", status := "failed", error := some msg }
  | .success (.ok (.obj fs)) =>
    let idJ : Option Json :=
      match jlookup fs "task_id" with
      | some v => some v
      | none => jlookup fs "id"
    match idJ with
    | some v =>
      match pyCoerceStr v with
      | .ok idStr => { job_id := idStr, status := "processing", metadata := some fs }
      | .error e => { job_id := "", status := "failed", error := some e }
    | none => { job_id := "", status := "failed", error := some "validation error: str type expected" }
  | .success (.ok _) =>
    { job_id := "", status := "failed", error := some "AttributeError: no attribute get" }

end KlingProvider

/-- Per-model price entry of CostCalculator.PRICING. -/
structure ModelPricing where
  per_second : ℚ
  base_cost : ℚ

namespace CostCalculator

/-- CostCalculator.PRICING, the static (provider, model) pricing table,
embedded as the dict lookup PRICING.get(provider, {}).get(model). -/
def PRICING (provider model : String) : Option ModelPricing :=
  if provider = "openai" then
    if model = "sora-2" then some ⟨1/10, 0⟩
    else if model = "sora-1" then some ⟨1/10, 0⟩
    else none
  else if provider = "runway" then
    if model = "runway-gen3" then some ⟨1/20, 0⟩
    else if model = "runway-gen4" then some ⟨3/40, 0⟩
    else none
  else if provider = "kling" then
    if model = "kling-1.5" then some ⟨1/25, 0⟩
    else if model = "kling-1.0" then some ⟨3/100, 0⟩
    else none
  else none

/-- Python round-half-even of a rational to an integer, the tie-breaking
rule of the built-in round(). -/
def roundHalfEven (q : ℚ) : ℤ :=
  if q - ⌊q⌋ < 1/2 then ⌊q⌋
  else if 1/2 < q - ⌊q⌋ then ⌊q⌋ + 1
  else if Even ⌊q⌋ then ⌊q⌋ else ⌊q⌋ + 1

/-- Python round(x, 4). -/
def pyRound4 (q : ℚ) : ℚ := (roundHalfEven (q * 10000) : ℚ) / 10000

/-- Parsing of a "WIDTHxHEIGHT" string: split on "x", unpack exactly two
parts, int() both; any failure raises (none). -/
def parseSizePair (cs : List Char) : Option (Int × Int) :=
  match splitOnChar 'x' cs with
  | [a, b] =>
    match pyIntOfChars a, pyIntOfChars b with
    | some w, some h => some (w, h)
    | _, _ => none
  | _ => none

/-- CostCalculator._get_resolution_multiplier: total pixels over
1280x720, clamped to [0.5, 2.0]; any parse failure yields 1.0. -/
def get_resolution_multiplier (resolution : String) : ℚ :=
  if resolution = "" then 1
  else
    match parseSizePair resolution.toList with
    | some wh => max (1/2) (min (((wh.1 * wh.2 : Int) : ℚ) / 921600) 2)
    | none => 1

/-- CostCalculator.calculate_cost: base + rate * duration, scaled by the
resolution multiplier when a (truthy) resolution is supplied, rounded to
4 decimal places; unknown (provider, model) pairs cost 0. -/
def calculate_cost (provider model : String) (duration_seconds : ℚ)
    (resolution : Option String) : ℚ :=
  match PRICING provider model with
  | none => 0
  | some pricing =>
    let total := pricing.base_cost + pricing.per_second * duration_seconds
    let total :=
      match resolution with
      | some r => if r = "" then total else total * get_resolution_multiplier r
      | none => total
    pyRound4 total

/-- calculate_cost as invoked dynamically by the orchestrator, where the
duration argument can be Python None: with a known (provider, model) the
multiplication rate * None raises a TypeError (the error branch); with an
unknown pair the function returns 0.0 before touching the duration. -/
def calculate_cost_py (provider model : String) (duration : Option ℚ)
    (resolution : Option String) : Except String ℚ :=
  match PRICING provider model with
  | none => .ok 0
  | some _ =>
    match duration with
    | none => .error "TypeError: unsupported operand type(s) for *: float and NoneType"
    | some d => .ok (calculate_cost provider model d resolution)

end CostCalculator

/-- GenerationStatus from src/backend/src/models/generation.py. -/
inductive GenerationStatus where
  | queued : GenerationStatus
  | processing : GenerationStatus
  | completed : GenerationStatus
  | failed : GenerationStatus
  | cancelled : GenerationStatus
  deriving DecidableEq

/-- Terminal states per the spec: COMPLETED, FAILED, CANCELLED. -/
def GenerationStatus.isTerminal : GenerationStatus → Bool
  | .completed => true
  | .failed => true
  | .cancelled => true
  | _ => false

/-- The persisted job record (model Generation), restricted to the fields
the orchestrator reads or writes.  Floats and datetimes are rationals. -/
structure Generation where
  id : String
  provider : String
  model : String
  prompt : String
  status : GenerationStatus
  error_message : Option String := none
  video_url : Option String := none
  video_path : Option String := none
  cost : Option ℚ := none
  duration_seconds : Option ℚ := none
  generation_time : Option ℚ := none
  width : Option Int := none
  height : Option Int := none
  provider_job_id : Option String := none
  completed_at : Option ℚ := none
  deriving DecidableEq

/-- The VideoGenerationRequest schema fields the background task uses.
aspect stands for the source field aspect_ratio. -/
structure VideoGenerationRequest where
  model : String
  prompt : String
  provider : Option String := none
  duration : Option Int := some 5
  aspect : Option String := some "16:9"
  seed : Option Int := none
  fps : Option Int := none
  deriving DecidableEq

/-- The collaborators of one background run of process_video_generation:
the submission outcome, the outcome of the i-th status check, the video
download collaborator (url, filename, headers to path-or-exception), and
the two wall-clock readings. -/
structure OrchestratorEnv where
  submission : VideoResponse
  polls : Nat → VideoResponse
  dl : String → String → Option (List (String × String)) → Except String String
  tStart : ℚ
  tEnd : ℚ

/-- Which branch ended the background run. -/
inductive ExitReason where
  | submitFailed : ExitReason
  | pollFailed : ExitReason
  | completedOk : ExitReason
  | completedNoUrl : ExitReason
  | boundaryDl : ExitReason
  | boundaryCost : ExitReason
  | timeout : ExitReason
  deriving DecidableEq

/-- Result of one background run: the final in-memory job record, the
ordered list of committed snapshots, the number of status checks
performed, and the exit branch. -/
structure RunResult where
  final : Generation
  trace : List Generation
  attempts : Nat
  exitReason : ExitReason

/-- max_attempts in process_video_generation. -/
def max_attempts : Nat := 60

/-- poll_interval_seconds: the asyncio.sleep argument before each status
check. -/
def poll_interval_seconds : Nat := 5

/-- The metadata-extraction block of the completed branch: if
status.metadata is truthy (a non-empty dict), parse "size" into
width/height (falling back to 1920x1080) and "seconds" into
duration_seconds (falling back to the requested duration, possibly
None). -/
def extractMeta (g : Generation) (meta : Option (List (String × Json)))
    (req : VideoGenerationRequest) : Generation :=
  match meta with
  | none => g
  | some [] => g
  | some m =>
      let sizeStr := pyStrOfJson ((jlookup m "size").getD (.str "1280x720"))
      let g1 :=
        if sizeStr.toList.any (fun c => c = 'x') then
          match CostCalculator.parseSizePair sizeStr.toList with
          | some wh => { g with width := some wh.1, height := some wh.2 }
          | none => { g with width := some 1920, height := some 1080 }
        else { g with width := some 1920, height := some 1080 }
      let durJ := (jlookup m "seconds").getD (.str (pyStrOfOptInt req.duration))
      { g1 with duration_seconds :=
          match pyFloatOfJson durJ with
          | some q => some q
          | none => req.duration.map (fun n => (n : ℚ)) }

/-- f"WIDTHxHEIGHT" if generation.width (truthy: set and nonzero) else
None. -/
def resolution_of (g : Generation) : Option String :=
  match g.width with
  | none => none
  | some w =>
    if w = 0 then none
    else
      some (toString w ++ "x" ++
        (match g.height with
         | some h => toString h
         | none => "None"))

/-- Coercion of the optional requested duration (an int) into an
optional float. -/
def optIntToQ : Option Int → Option ℚ
  | some n => some ((n : ℚ))
  | none => none

/-- Python's x or y over optional floats: 0.0 and None are falsy. -/
def pyOrQ (x y : Option ℚ) : Option ℚ :=
  match x with
  | some q => if q = 0 then y else some q
  | none => y

/-- The polling loop of process_video_generation.  fuel is the remaining
attempt budget, i the number of checks already made, g the current
in-memory job record, tr the committed snapshots so far.  The completed
branch downloads the artifact, mutates the record, computes the final
cost and commits; an exception from the download or the cost computation
is caught at the function boundary, which marks the (already mutated)
record FAILED and commits it. -/
def poll_loop (env : OrchestratorEnv) (req : VideoGenerationRequest)
    (provider_name generation_id api_key : String) :
    Nat → Nat → Generation → List Generation → RunResult
  | 0, i, g, tr =>
    let g1 := { g with status := .failed, error_message := some "Generation timeout" }
    ⟨g1, tr ++ [g1], i, .timeout⟩
  | fuel + 1, i, g, tr =>
    let st := env.polls i
    if st.status = "completed" then
      match st.video_url with
      | none => ⟨g, tr, i + 1, .completedNoUrl⟩
      | some url =>
        let filename := generation_id ++ ".mp4"
        let headers :=
          if provider_name = "openai" then some [("Authorization", "Bearer " ++ api_key)]
          else none
        match env.dl url filename headers with
        | .error e =>
          let g1 := { g with status := .failed, error_message := some e }
          ⟨g1, tr ++ [g1], i + 1, .boundaryDl⟩
        | .ok video_path =>
          let g2 := { g with
            status := GenerationStatus.completed,
            video_url := some ("http://localhost:3001" ++ video_path),
            video_path := some video_path,
            generation_time := some (env.tEnd - env.tStart),
            completed_at := some env.tEnd }
          let g3 := extractMeta g2 st.metadata req
          match CostCalculator.calculate_cost_py provider_name req.model
              (pyOrQ g3.duration_seconds (optIntToQ req.duration))
              (resolution_of g3) with
          | .error e =>
            let g4 := { g3 with status := .failed, error_message := some e }
            ⟨g4, tr ++ [g4], i + 1, .boundaryCost⟩
          | .ok c =>
            let g4 := { g3 with cost := some c }
            ⟨g4, tr ++ [g4], i + 1, .completedOk⟩
    else if st.status = "failed" then
      let g1 := { g with status := .failed, error_message := st.error }
      ⟨g1, tr ++ [g1], i + 1, .pollFailed⟩
    else
      poll_loop env req provider_name generation_id api_key fuel (i + 1) g tr

/-- process_video_generation (src/backend/src/api/routes.py): pick the
job up (unconditionally set PROCESSING and commit), submit, and either
fail immediately on a failed submission outcome or run the polling loop
with the fixed attempt budget.  The remote job id returned by the
submission is used only in memory for polling (abstracted into
env.polls); asyncio.sleep(poll_interval_seconds) before each check is
real time and has no observable effect on the record. -/
def process_video_generation (env : OrchestratorEnv) (gen0 : Generation)
    (req : VideoGenerationRequest) (provider_name api_key : String) : RunResult :=
  let g1 := { gen0 with status := GenerationStatus.processing }
  if env.submission.status = "failed" then
    let g2 := { g1 with status := .failed, error_message := env.submission.error }
    ⟨g2, [g1, g2], 0, .submitFailed⟩
  else
    poll_loop env req provider_name gen0.id api_key max_attempts 0 g1 [g1]

/-- Modelled from the spec: hashlib.sha256 (external library code, not
under src/) used by EncryptionService.__init__ to derive the cipher key
from the configured master key; the spec requires only that the secret is
derived via a one-way hash from the master key, so any fixed total
function of the master key is an adequate model of the derivation for the
round-trip property. -/
def sha256_derive (master_key : String) : Nat :=
  master_key.toList.foldl (fun a c => (a * 131 + c.toNat + 7) % (2 ^ 256)) 5381

/-- Modelled from the spec: the Fernet symmetric cipher of the
cryptography library (external library code, not under src/),
encryption direction.  The spec requires a symmetric (invertible) cipher
keyed by the derived secret; this model emits, per plaintext character,
a high-part character and a key-shifted low-part character, both inside
the valid unicode scalar range. -/
def fernet_encrypt_chars (key : Nat) : List Char → List Char
  | [] => []
  | c :: rest =>
    Char.ofNat (c.toNat / 1024) ::
    Char.ofNat ((c.toNat % 1024 + key) % 1024) ::
    fernet_encrypt_chars key rest

/-- Modelled from the spec: the Fernet symmetric cipher, decryption
direction (inverse key shift and recombination of the two-character
groups). -/
def fernet_decrypt_chars (key : Nat) : List Char → List Char
  | hi :: lo :: rest =>
    Char.ofNat (hi.toNat * 1024 + ((lo.toNat + 1024 - key % 1024) % 1024)) ::
    fernet_decrypt_chars key rest
  | _ => []

/-- EncryptionService (src/backend/src/services/encryption.py): holds the
cipher keyed by the hash-derived secret. -/
structure EncryptionService where
  cipher_key : Nat

/-- EncryptionService.__init__: derive the cipher key from the configured
master key. -/
def EncryptionService.init (encryption_key : String) : EncryptionService :=
  ⟨sha256_derive encryption_key⟩

/-- EncryptionService.encrypt: cipher.encrypt over the plaintext. -/
def EncryptionService.encrypt (svc : EncryptionService) (plaintext : String) : String :=
  String.mk (fernet_encrypt_chars svc.cipher_key plaintext.toList)

/-- EncryptionService.decrypt: cipher.decrypt over the ciphertext. -/
def EncryptionService.decrypt (svc : EncryptionService) (ciphertext : String) : String :=
  String.mk (fernet_decrypt_chars svc.cipher_key ciphertext.toList)

/-- Valid scalar values below the surrogate range survive the
Char.ofNat/toNat round trip. -/
theorem char_toNat_ofNat_lt (n : Nat) (h : n < 55296) : (Char.ofNat n).toNat = n := by
  have hv : n.isValidChar := Or.inl h
  simp [Char.ofNat, hv, Char.toNat, Char.ofNatAux, UInt32.toNat, BitVec.toNat_ofNatLt]

/-- Unicode scalar values are below 1114112. -/
theorem char_toNat_lt (c : Char) : c.toNat < 1114112 := by
  have hv := c.valid
  rcases hv with h | ⟨_, h⟩ <;> simpa [Char.toNat, UInt32.isValidChar, Nat.isValidChar] using by omega

/-- The modelled Fernet cipher inverts itself on character lists. -/
theorem fernet_roundtrip_chars (key : Nat) (cs : List Char) :
    fernet_decrypt_chars key (fernet_encrypt_chars key cs) = cs := by
  induction cs with
  | nil => rfl
  | cons c rest ih =>
    have hcv : c.toNat < 1114112 := char_toNat_lt c
    have hhiv : c.toNat / 1024 < 55296 := by
      have h1 : c.toNat / 1024 ≤ 1114111 / 1024 := Nat.div_le_div_right (by omega)
      omega
    have hlov : (c.toNat % 1024 + key) % 1024 < 55296 := by
      have := Nat.mod_lt (c.toNat % 1024 + key) (show 0 < 1024 by omega)
      omega
    have hhi : (Char.ofNat (c.toNat / 1024)).toNat = c.toNat / 1024 :=
      char_toNat_ofNat_lt _ hhiv
    have hlo : (Char.ofNat ((c.toNat % 1024 + key) % 1024)).toNat = (c.toNat % 1024 + key) % 1024 :=
      char_toNat_ofNat_lt _ hlov
    show Char.ofNat _ :: fernet_decrypt_chars key (fernet_encrypt_chars key rest) = c :: rest
    rw [ih, hhi, hlo]
    congr 1
    have harith : c.toNat / 1024 * 1024 + ((c.toNat % 1024 + key) % 1024 + 1024 - key % 1024) % 1024
        = c.toNat := by omega
    rw [harith, Char.ofNat_toNat]

/-- C9: for every configured master key and every string s, decrypting
the encryption of s with the CredentialVault cipher (the symmetric
cipher keyed by the hash-derived secret, modelled from the spec since
Fernet itself is external library code) returns exactly s. -/
theorem encrypt_decrypt_roundtrip (master_key s : String) :
    (EncryptionService.init master_key).decrypt
      ((EncryptionService.init master_key).encrypt s) = s := by
  unfold EncryptionService.decrypt EncryptionService.encrypt
  have h1 : (String.mk (fernet_encrypt_chars (EncryptionService.init master_key).cipher_key s.toList)).toList
      = fernet_encrypt_chars (EncryptionService.init master_key).cipher_key s.toList := rfl
  rw [h1, fernet_roundtrip_chars]
  cases s
  rfl

namespace CostCalculator

/-- roundHalfEven stays within one unit above the floor. -/
theorem roundHalfEven_le (q : ℚ) : roundHalfEven q ≤ ⌊q⌋ + 1 := by
  unfold roundHalfEven
  split_ifs <;> omega

/-- roundHalfEven stays at or above the floor. -/
theorem le_roundHalfEven (q : ℚ) : ⌊q⌋ ≤ roundHalfEven q := by
  unfold roundHalfEven
  split_ifs <;> omega

/-- roundHalfEven is monotone. -/
theorem roundHalfEven_mono {a b : ℚ} (hab : a ≤ b) : roundHalfEven a ≤ roundHalfEven b := by
  have hfl : ⌊a⌋ ≤ ⌊b⌋ := Int.floor_le_floor hab
  rcases eq_or_lt_of_le hfl with hf | hf
  · unfold roundHalfEven
    rw [← hf]
    have hr : a - (⌊a⌋ : ℚ) ≤ b - (⌊a⌋ : ℚ) := by linarith
    split_ifs <;> first | omega | linarith
  · calc roundHalfEven a ≤ ⌊a⌋ + 1 := roundHalfEven_le a
      _ ≤ ⌊b⌋ := by omega
      _ ≤ roundHalfEven b := le_roundHalfEven b

/-- roundHalfEven of zero is zero. -/
theorem roundHalfEven_zero : roundHalfEven 0 = 0 := by
  unfold roundHalfEven
  norm_num

/-- pyRound4 is monotone. -/
theorem pyRound4_mono {a b : ℚ} (hab : a ≤ b) : pyRound4 a ≤ pyRound4 b := by
  unfold pyRound4
  have h1 : a * 10000 ≤ b * 10000 := by linarith
  have h2 := roundHalfEven_mono h1
  have h3 : ((roundHalfEven (a * 10000) : ℤ) : ℚ) ≤ ((roundHalfEven (b * 10000) : ℤ) : ℚ) := by
    exact_mod_cast h2
  exact (div_le_div_iff_of_pos_right (show (0:ℚ) < 10000 by norm_num)).mpr h3

/-- pyRound4 of a non-negative rational is non-negative. -/
theorem pyRound4_nonneg {q : ℚ} (hq : 0 ≤ q) : 0 ≤ pyRound4 q := by
  have h0 : pyRound4 0 = 0 := by
    unfold pyRound4
    rw [show (0:ℚ) * 10000 = 0 by ring, roundHalfEven_zero]
    norm_num
  calc (0:ℚ) = pyRound4 0 := h0.symm
    _ ≤ pyRound4 q := pyRound4_mono hq

/-- The resolution multiplier is always strictly positive. -/
theorem get_resolution_multiplier_pos (r : String) : 0 < get_resolution_multiplier r := by
  unfold get_resolution_multiplier
  split_ifs with h
  · norm_num
  · cases hp : parseSizePair r.toList with
    | none => norm_num
    | some wh =>
      have : (0:ℚ) < 1/2 := by norm_num
      calc (0:ℚ) < 1/2 := this
        _ ≤ max (1/2) (min (((wh.1 * wh.2 : Int) : ℚ) / 921600) 2) := le_max_left _ _

/-- Every entry of the pricing table has a non-negative rate and base
cost. -/
theorem pricing_nonneg {p m : String} {pr : ModelPricing}
    (h : PRICING p m = some pr) : 0 ≤ pr.per_second ∧ 0 ≤ pr.base_cost := by
  unfold PRICING at h
  split_ifs at h <;>
    first
      | exact Option.noConfusion h
      | (obtain rfl : pr = _ := (Option.some.inj h).symm; constructor <;> norm_num)

end CostCalculator

/-- C8: for every (provider, model) pair present in the pricing table,
every resolution argument, and durations 0 ≤ d1 ≤ d2,
calculate_cost is non-negative at d1 and non-decreasing from d1 to d2. -/
theorem calculate_cost_nonneg_mono (p m : String) (pr : ModelPricing)
    (r : Option String) (d1 d2 : ℚ)
    (hp : CostCalculator.PRICING p m = some pr) (h0 : 0 ≤ d1) (h12 : d1 ≤ d2) :
    0 ≤ CostCalculator.calculate_cost p m d1 r ∧
    CostCalculator.calculate_cost p m d1 r ≤ CostCalculator.calculate_cost p m d2 r := by
  obtain ⟨hrate, hbase⟩ := CostCalculator.pricing_nonneg hp
  unfold CostCalculator.calculate_cost
  rw [hp]
  have ht1 : 0 ≤ pr.base_cost + pr.per_second * d1 :=
    add_nonneg hbase (mul_nonneg hrate h0)
  have ht12 : pr.base_cost + pr.per_second * d1 ≤ pr.base_cost + pr.per_second * d2 := by
    have := mul_le_mul_of_nonneg_left h12 hrate
    linarith
  cases r with
  | none =>
    exact ⟨CostCalculator.pyRound4_nonneg ht1, CostCalculator.pyRound4_mono ht12⟩
  | some s =>
    by_cases hs : s = ""
    · simp only [hs, if_pos rfl]
      exact ⟨CostCalculator.pyRound4_nonneg ht1, CostCalculator.pyRound4_mono ht12⟩
    · simp only [if_neg hs]
      have hmul := CostCalculator.get_resolution_multiplier_pos s
      constructor
      · exact CostCalculator.pyRound4_nonneg (mul_nonneg ht1 hmul.le)
      · exact CostCalculator.pyRound4_mono (mul_le_mul_of_nonneg_right ht12 hmul.le)

/-- Witness for calculate_cost_nonneg_mono at the table entry
("openai", "sora-2") with durations 3 and 5 and resolution "1280x720". -/
theorem calculate_cost_nonneg_mono_witness :
    CostCalculator.PRICING "openai" "sora-2" = some ⟨1/10, 0⟩ ∧
    (0:ℚ) ≤ 3 ∧ (3:ℚ) ≤ 5 ∧
    (0 ≤ CostCalculator.calculate_cost "openai" "sora-2" 3 (some "1280x720") ∧
     CostCalculator.calculate_cost "openai" "sora-2" 3 (some "1280x720") ≤
       CostCalculator.calculate_cost "openai" "sora-2" 5 (some "1280x720")) :=
  ⟨by norm_num [CostCalculator.PRICING], by norm_num, by norm_num,
   calculate_cost_nonneg_mono "openai" "sora-2" ⟨1/10, 0⟩ (some "1280x720") 3 5
     (by norm_num [CostCalculator.PRICING]) (by norm_num) (by norm_num)⟩

/-- Normalized status the Sora adapter reports for a successful status
fetch whose body carries the native status string s. -/
def soraNorm (s : String) : String :=
  (SoraProvider.check_status (.success (.ok (.obj [("status", Json.str s)]))) "job").status

/-- Normalized status the Runway adapter reports for a successful status
fetch whose body carries the native status string s. -/
def runwayNorm (s : String) : String :=
  (RunwayProvider.check_status (.success (.ok (.obj [("status", Json.str s)]))) "job").status

/-- Normalized status the Kling adapter reports for a successful status
fetch whose body carries the native status string s. -/
def klingNorm (s : String) : String :=
  (KlingProvider.check_status (.success (.ok (.obj [("task_status", Json.str s)]))) "job").status

/-- runwayNorm is the table lookup with default "processing". -/
theorem runwayNorm_eq (s : String) :
    runwayNorm s = (RunwayProvider.status_map s).getD "processing" := by
  unfold runwayNorm RunwayProvider.check_status RunwayProvider.statusFromJson
  simp only [jlookup, if_pos rfl]
  by_cases hc : (RunwayProvider.status_map s).getD "processing" = "completed"
  · simp [hc, jlookup]
  · simp [hc]

/-- klingNorm is the table lookup with default "processing". -/
theorem klingNorm_eq (s : String) :
    klingNorm s = (KlingProvider.status_map s).getD "processing" := by
  unfold klingNorm KlingProvider.check_status KlingProvider.statusFromJson
  simp only [jlookup, if_pos rfl]
  by_cases hc : (KlingProvider.status_map s).getD "processing" = "completed"
  · simp [hc, jlookup]
  · simp [hc]

/-- soraNorm is the table lookup with the NATIVE status as default. -/
theorem soraNorm_eq (s : String) :
    soraNorm s = (SoraProvider.status_map s).getD s := by
  unfold soraNorm SoraProvider.check_status
  simp only [jlookup, if_pos rfl, Option.getD_some]
  simp [pyCoerceStr]

/-- C1 counterexample: the Sora adapter passes an unrecognized native
status string through verbatim instead of mapping it into the three
normalized values, because status_map.get(status, status) defaults to
the native value. -/
theorem sora_unknown_status_passthrough :
    soraNorm "expired" = "expired" ∧
    ¬(soraNorm "expired" = "processing" ∨ soraNorm "expired" = "completed" ∨
      soraNorm "expired" = "failed") := by
  constructor
  · rfl
  · decide

/-- C1 amended: Runway and Kling normalize every native status string
into exactly the three values processing, completed, failed, following
their fixed tables with default "processing"; the OpenAI adapter follows
its fixed table on the five recognized native statuses, but any native
status outside its table is returned verbatim rather than normalized. -/
theorem status_normalization_tables (s : String) :
    ((runwayNorm s = "processing" ∨ runwayNorm s = "completed" ∨ runwayNorm s = "failed") ∧
     (klingNorm s = "processing" ∨ klingNorm s = "completed" ∨ klingNorm s = "failed") ∧
     runwayNorm "pending" = "processing" ∧ runwayNorm "processing" = "processing" ∧
     runwayNorm "succeeded" = "completed" ∧ runwayNorm "failed" = "failed" ∧
     klingNorm "pending" = "processing" ∧ klingNorm "running" = "processing" ∧
     klingNorm "success" = "completed" ∧ klingNorm "failed" = "failed" ∧
     soraNorm "queued" = "processing" ∧ soraNorm "processing" = "processing" ∧
     soraNorm "completed" = "completed" ∧ soraNorm "failed" = "failed" ∧
     soraNorm "cancelled" = "failed") ∧
    (SoraProvider.status_map s = none → soraNorm s = s) := by
  refine ⟨⟨?_, ?_, by decide, by decide, by decide, by decide, by decide, by decide,
    by decide, by decide, by decide, by decide, by decide, by decide, by decide⟩, ?_⟩
  · rw [runwayNorm_eq]
    unfold RunwayProvider.status_map
    split_ifs <;> simp
  · rw [klingNorm_eq]
    unfold KlingProvider.status_map
    split_ifs <;> simp
  · intro hnone
    rw [soraNorm_eq, hnone]
    rfl

/-- Witness for status_normalization_tables at the unrecognized native
status "expired". -/
theorem status_normalization_tables_witness :
    SoraProvider.status_map "expired" = none ∧ soraNorm "expired" = "expired" :=
  ⟨by rfl, (status_normalization_tables "expired").2 (by rfl)⟩

/-- Transport behaviours that are failure modes for an adapter call: an
exception (timeout, connection failure), an HTTP error status, or a 2xx
response whose body fails to parse as JSON. -/
def HttpResult.isFailure : HttpResult → Bool
  | .exn _ => true
  | .httpError _ _ _ => true
  | .success (.error _) => true
  | .success (.ok _) => false

/-- C5: for every adapter, every request or remote job id, and every
failure behaviour of the HTTP transport (exception, HTTP error status,
malformed 2xx body), generate_video and check_status return an outcome
whose status is "failed" and which carries an error message; the
embedding is total, reflecting that the source wraps every body in
try/except and so never propagates an exception. -/
theorem adapters_no_throw_failure_outcomes (h : HttpResult) (req : VideoRequest)
    (jid : String) (hf : h.isFailure = true) :
    ((SoraProvider.generate_video h req).status = "failed" ∧
     (SoraProvider.generate_video h req).error.isSome = true) ∧
    ((SoraProvider.check_status h jid).status = "failed" ∧
     (SoraProvider.check_status h jid).error.isSome = true) ∧
    ((RunwayProvider.generate_video h req).status = "failed" ∧
     (RunwayProvider.generate_video h req).error.isSome = true) ∧
    ((RunwayProvider.check_status h jid).status = "failed" ∧
     (RunwayProvider.check_status h jid).error.isSome = true) ∧
    ((KlingProvider.generate_video h req).status = "failed" ∧
     (KlingProvider.generate_video h req).error.isSome = true) ∧
    ((KlingProvider.check_status h jid).status = "failed" ∧
     (KlingProvider.check_status h jid).error.isSome = true) := by
  cases h with
  | exn m =>
    simp [SoraProvider.generate_video, SoraProvider.check_status,
      RunwayProvider.generate_video, RunwayProvider.check_status,
      KlingProvider.generate_video, KlingProvider.check_status]
  | httpError c t b =>
    simp [SoraProvider.generate_video, SoraProvider.check_status,
      RunwayProvider.generate_video, RunwayProvider.check_status,
      KlingProvider.generate_video, KlingProvider.check_status]
  | success e =>
    cases e with
    | error m =>
      simp [SoraProvider.generate_video, SoraProvider.check_status,
        RunwayProvider.generate_video, RunwayProvider.check_status,
        KlingProvider.generate_video, KlingProvider.check_status]
    | ok j => simp [HttpResult.isFailure] at hf

/-- Witness for adapters_no_throw_failure_outcomes at a connection
timeout. -/
theorem adapters_no_throw_failure_outcomes_witness :
    HttpResult.isFailure (.exn "connection timed out") = true ∧
    ((SoraProvider.generate_video (.exn "connection timed out") { prompt := "p" }).status = "failed" ∧
     (SoraProvider.generate_video (.exn "connection timed out") { prompt := "p" }).error.isSome = true) :=
  ⟨rfl, (adapters_no_throw_failure_outcomes (.exn "connection timed out")
    { prompt := "p" } "job" rfl).1⟩

/-- C6 counterexample: on an HTTP error whose body carries a parseable
error envelope, the Runway adapter ignores the envelope and uses the raw
body text, so the outcome differs from the envelope-parsed message the
claim prescribes. -/
theorem runway_http_error_ignores_envelope :
    (RunwayProvider.generate_video
      (.httpError 400 "raw body"
        (.ok (.obj [("error", Json.obj [("message", Json.str "parsed message")])])))
      { prompt := "p" }).error = some "HTTP 400: raw body" ∧
    ("HTTP 400: raw body" : String) ≠ "HTTP 400: parsed message" := by
  exact ⟨rfl, by decide⟩

/-- C6 amended: on an HTTP error status every adapter returns a failed
outcome whose error text is "HTTP <code>: <detail>"; for Runway and
Kling the detail is always the raw body text (no envelope parsing is
attempted), while for OpenAI the detail is the envelope message when the
body parses to an envelope with a string message, and the raw body text
when the body does not parse. -/
theorem http_error_message_format (c : Nat) (t : String) (b : Except String Json)
    (req : VideoRequest) (jid : String) (m : String) (pe : String) :
    (RunwayProvider.generate_video (.httpError c t b) req).error
      = some ("HTTP " ++ toString c ++ ": " ++ t) ∧
    (RunwayProvider.check_status (.httpError c t b) jid).error
      = some ("HTTP " ++ toString c ++ ": " ++ t) ∧
    (KlingProvider.generate_video (.httpError c t b) req).error
      = some ("HTTP " ++ toString c ++ ": " ++ t) ∧
    (KlingProvider.check_status (.httpError c t b) jid).error
      = some ("HTTP " ++ toString c ++ ": " ++ t) ∧
    (SoraProvider.generate_video
        (.httpError c t (.ok (.obj [("error", Json.obj [("message", Json.str m)])]))) req).error
      = some ("HTTP " ++ toString c ++ ": " ++ m) ∧
    (SoraProvider.check_status
        (.httpError c t (.ok (.obj [("error", Json.obj [("message", Json.str m)])]))) jid).error
      = some ("HTTP " ++ toString c ++ ": " ++ m) ∧
    (SoraProvider.generate_video (.httpError c t (.error pe)) req).error
      = some ("HTTP " ++ toString c ++ ": " ++ t) ∧
    (SoraProvider.check_status (.httpError c t (.error pe)) jid).error
      = some ("HTTP " ++ toString c ++ ": " ++ t) := by
  refine ⟨rfl, rfl, rfl, rfl, ?_, ?_, rfl, rfl⟩ <;>
    simp [SoraProvider.generate_video, SoraProvider.check_status,
      SoraProvider.error_detail, jlookup, pyStrOfJson]

/-- The polling loop performs at most fuel further status checks. -/
theorem poll_loop_attempts_le (env : OrchestratorEnv) (req : VideoGenerationRequest)
    (pn gid key : String) :
    ∀ (fuel i : Nat) (g : Generation) (tr : List Generation),
      (poll_loop env req pn gid key fuel i g tr).attempts ≤ i + fuel := by
  intro fuel
  induction fuel with
  | zero => intro i g tr; simp [poll_loop]
  | succ n ih =>
    intro i g tr
    simp only [poll_loop]
    split
    · split
      · simp
      · split
        · simp
        · split
          · simp
          · simp
    · split
      · simp
      · exact le_trans (ih (i + 1) g tr) (by omega)

/-- Metadata extraction touches only width, height and duration_seconds:
the status is unchanged. -/
theorem extractMeta_status (g : Generation) (meta : Option (List (String × Json)))
    (req : VideoGenerationRequest) : (extractMeta g meta req).status = g.status := by
  unfold extractMeta
  cases meta with
  | none => rfl
  | some m =>
    cases m with
    | nil => rfl
    | cons p rest =>
      dsimp only
      split
      · split <;> rfl
      · rfl

/-- Metadata extraction leaves video_path unchanged. -/
theorem extractMeta_video_path (g : Generation) (meta : Option (List (String × Json)))
    (req : VideoGenerationRequest) : (extractMeta g meta req).video_path = g.video_path := by
  unfold extractMeta
  cases meta with
  | none => rfl
  | some m =>
    cases m with
    | nil => rfl
    | cons p rest =>
      dsimp only
      split
      · split <;> rfl
      · rfl

/-- Metadata extraction leaves provider_job_id unchanged. -/
theorem extractMeta_provider_job_id (g : Generation) (meta : Option (List (String × Json)))
    (req : VideoGenerationRequest) : (extractMeta g meta req).provider_job_id = g.provider_job_id := by
  unfold extractMeta
  cases meta with
  | none => rfl
  | some m =>
    cases m with
    | nil => rfl
    | cons p rest =>
      dsimp only
      split
      · split <;> rfl
      · rfl

/-- Python's x or y with a non-None y always yields a value. -/
theorem pyOrQ_some (x : Option ℚ) (y : ℚ) : ∃ q, pyOrQ x (some y) = some q := by
  unfold pyOrQ
  cases x with
  | none => exact ⟨y, rfl⟩
  | some q => by_cases h : q = 0 <;> simp [h]

/-- calculate_cost_py never raises when the duration argument is an
actual number. -/
theorem calculate_cost_py_ok (p m : String) (q : ℚ) (r : Option String) :
    ∃ c, CostCalculator.calculate_cost_py p m (some q) r = .ok c := by
  unfold CostCalculator.calculate_cost_py
  cases hp : CostCalculator.PRICING p m with
  | none => exact ⟨0, rfl⟩
  | some pr => exact ⟨_, rfl⟩

/-- Shape of one polling run: either it stops without committing (the
completed-without-URL break) leaving the record as it was, or it commits
exactly one final snapshot, whose status is terminal and whose
provider_job_id is untouched. -/
theorem poll_loop_trace_shape (env : OrchestratorEnv) (req : VideoGenerationRequest)
    (pn gid key : String) :
    ∀ (fuel i : Nat) (g : Generation) (tr : List Generation),
      ((poll_loop env req pn gid key fuel i g tr).trace = tr ∧
       (poll_loop env req pn gid key fuel i g tr).final = g) ∨
      ∃ gN, (poll_loop env req pn gid key fuel i g tr).trace = tr ++ [gN] ∧
        (poll_loop env req pn gid key fuel i g tr).final = gN ∧
        gN.status.isTerminal = true ∧
        gN.provider_job_id = g.provider_job_id := by
  intro fuel
  induction fuel with
  | zero =>
    intro i g tr
    exact Or.inr ⟨_, rfl, rfl, rfl, rfl⟩
  | succ n ih =>
    intro i g tr
    simp only [poll_loop]
    split
    · split
      · exact Or.inl ⟨rfl, rfl⟩
      · split
        · exact Or.inr ⟨_, rfl, rfl, rfl, rfl⟩
        · split
          · refine Or.inr ⟨_, rfl, rfl, ?_, ?_⟩ <;>
              simp [extractMeta_status, extractMeta_provider_job_id, GenerationStatus.isTerminal]
          · refine Or.inr ⟨_, rfl, rfl, ?_, ?_⟩ <;>
              simp [extractMeta_status, extractMeta_provider_job_id, GenerationStatus.isTerminal]
    · split
      · exact Or.inr ⟨_, rfl, rfl, rfl, rfl⟩
      · exact ih (i + 1) g tr

/-- When the polling loop ends through a failed poll, the timeout, or a
download exception, the final record is the input record with only
status and error_message changed. -/
theorem poll_loop_failed_frame (env : OrchestratorEnv) (req : VideoGenerationRequest)
    (pn gid key : String) :
    ∀ (fuel i : Nat) (g : Generation) (tr : List Generation),
      ((poll_loop env req pn gid key fuel i g tr).exitReason = .submitFailed ∨
       (poll_loop env req pn gid key fuel i g tr).exitReason = .pollFailed ∨
       (poll_loop env req pn gid key fuel i g tr).exitReason = .timeout ∨
       (poll_loop env req pn gid key fuel i g tr).exitReason = .boundaryDl) →
      ∃ e, (poll_loop env req pn gid key fuel i g tr).final =
        { g with status := GenerationStatus.failed, error_message := e } := by
  intro fuel
  induction fuel with
  | zero =>
    intro i g tr _
    exact ⟨some "Generation timeout", rfl⟩
  | succ n ih =>
    intro i g tr hex
    revert hex
    simp only [poll_loop]
    split
    · split
      · intro hex; simp at hex
      · split
        · intro _; exact ⟨_, rfl⟩
        · split
          · intro hex; simp at hex
          · intro hex; simp at hex
    · split
      · intro _; exact ⟨_, rfl⟩
      · exact ih (i + 1) g tr

/-- When no poll inside the budget reports a terminal normalized status,
the loop uses its whole budget and ends in the timeout branch. -/
theorem poll_loop_timeout_run (env : OrchestratorEnv) (req : VideoGenerationRequest)
    (pn gid key : String) :
    ∀ (fuel i : Nat) (g : Generation) (tr : List Generation),
      (∀ k, i ≤ k → k < i + fuel →
        (env.polls k).status ≠ "completed" ∧ (env.polls k).status ≠ "failed") →
      poll_loop env req pn gid key fuel i g tr =
        ⟨{ g with status := GenerationStatus.failed, error_message := some "Generation timeout" },
         tr ++ [{ g with status := GenerationStatus.failed, error_message := some "Generation timeout" }],
         i + fuel, .timeout⟩ := by
  intro fuel
  induction fuel with
  | zero => intro i g tr _; rfl
  | succ n ih =>
    intro i g tr hall
    have hi := hall i (le_refl i) (by omega)
    simp only [poll_loop, if_neg hi.1, if_neg hi.2]
    have := ih (i + 1) g tr (fun k hk1 hk2 => hall k (by omega) (by omega))
    rw [this]
    have harith : i + 1 + n = i + (n + 1) := by omega
    rw [harith]

/-- When the first N-1 polls report "processing", the Nth reports
"completed" with an artifact URL, the download succeeds, and the request
carries a duration, the loop commits a COMPLETED record carrying the
downloaded artifact location. -/
theorem poll_loop_completes (env : OrchestratorEnv) (req : VideoGenerationRequest)
    (pn gid key : String) (u path : String) (d : Int) :
    ∀ (N fuel i : Nat) (g : Generation) (tr : List Generation),
      1 ≤ N → N ≤ fuel →
      (∀ k, i ≤ k → k < i + (N - 1) → (env.polls k).status = "processing") →
      (env.polls (i + (N - 1))).status = "completed" →
      (env.polls (i + (N - 1))).video_url = some u →
      env.dl u (gid ++ ".mp4")
        (if pn = "openai" then some [("Authorization", "Bearer " ++ key)] else none) = .ok path →
      req.duration = some d →
      (poll_loop env req pn gid key fuel i g tr).final.status = GenerationStatus.completed ∧
      (poll_loop env req pn gid key fuel i g tr).final.video_path = some path ∧
      (poll_loop env req pn gid key fuel i g tr).exitReason = .completedOk := by
  intro N
  induction N with
  | zero => intro fuel i g tr h1; omega
  | succ m ihN =>
    intro fuel i g tr _ hfuel hpre hfin hurl hdl hdur
    cases fuel with
    | zero => omega
    | succ n =>
      cases m with
      | zero =>
        have hfin0 : (env.polls i).status = "completed" := by simpa using hfin
        have hurl0 : (env.polls i).video_url = some u := by simpa using hurl
        obtain ⟨q, hq⟩ := pyOrQ_some (extractMeta { g with
            status := GenerationStatus.completed,
            video_url := some ("http://localhost:3001" ++ path),
            video_path := some path,
            generation_time := some (env.tEnd - env.tStart),
            completed_at := some env.tEnd } (env.polls i).metadata req).duration_seconds (d : ℚ)
        obtain ⟨c, hc⟩ := calculate_cost_py_ok pn req.model q (resolution_of (extractMeta { g with
            status := GenerationStatus.completed,
            video_url := some ("http://localhost:3001" ++ path),
            video_path := some path,
            generation_time := some (env.tEnd - env.tStart),
            completed_at := some env.tEnd } (env.polls i).metadata req))
        simp only [poll_loop, if_pos hfin0, hurl0, hdl, hdur, optIntToQ, hq, hc]
        simp [extractMeta_status, extractMeta_video_path]
      | succ m1 =>
        have hproc : (env.polls i).status = "processing" := by
          apply hpre i (le_refl i)
          omega
        have hne1 : ¬((env.polls i).status = "completed") := by rw [hproc]; decide
        have hne2 : ¬((env.polls i).status = "failed") := by rw [hproc]; decide
        simp only [poll_loop, if_neg hne1, if_neg hne2]
        apply ihN n (i + 1) g tr (by omega) (by omega)
        · intro k hk1 hk2
          apply hpre k (by omega) (by omega)
        · have : i + 1 + (m1 + 1 - 1) = i + (m1 + 1 + 1 - 1) := by omega
          rw [this]
          exact hfin
        · have : i + 1 + (m1 + 1 - 1) = i + (m1 + 1 + 1 - 1) := by omega
          rw [this]
          exact hurl
        · exact hdl
        · exact hdur

/-- In a two-snapshot committed trace whose first snapshot is
non-terminal, a terminal snapshot can only be the last one, so no later
snapshot differs from it. -/
theorem two_elem_trace_stable (g1 gN : Generation) (i j : Nat) (hij : i ≤ j)
    (x y : Generation)
    (hx : ([g1, gN] : List Generation).get? i = some x)
    (hy : ([g1, gN] : List Generation).get? j = some y)
    (h1 : g1.status.isTerminal = false) (hterm : x.status.isTerminal = true) : y = x := by
  cases i with
  | zero =>
    simp only [List.get?] at hx
    obtain rfl : g1 = x := by injection hx
    rw [h1] at hterm
    exact absurd hterm (by decide)
  | succ i1 =>
    cases i1 with
    | zero =>
      simp only [List.get?] at hx
      obtain rfl : gN = x := by injection hx
      cases j with
      | zero => omega
      | succ j1 =>
        cases j1 with
        | zero =>
          simp only [List.get?] at hy
          injection hy with hy
          exact hy.symm
        | succ j2 => simp [List.get?] at hy
    | succ i2 => simp [List.get?] at hx

/-- In a one-snapshot committed trace whose snapshot is non-terminal,
the stability statement holds vacuously. -/
theorem one_elem_trace_stable (g1 : Generation) (i : Nat)
    (x y : Generation)
    (hx : ([g1] : List Generation).get? i = some x)
    (h1 : g1.status.isTerminal = false) (hterm : x.status.isTerminal = true) : y = x := by
  cases i with
  | zero =>
    simp only [List.get?] at hx
    obtain rfl : g1 = x := by injection hx
    rw [h1] at hterm
    exact absurd hterm (by decide)
  | succ i1 => simp [List.get?] at hx

/-- C3 amended: within one orchestrator run, once a committed snapshot
is terminal no later committed snapshot differs from it (the engine
itself never moves a job out of a terminal state it produced).  The
pickup step, however, sets PROCESSING unconditionally, so a job that was
already terminal BEFORE the run is moved out of its terminal state (see
the counterexample pickup_overwrites_cancelled). -/
theorem no_transition_out_of_terminal (env : OrchestratorEnv) (gen0 : Generation)
    (req : VideoGenerationRequest) (pn key : String) (i j : Nat) (hij : i ≤ j)
    (x y : Generation)
    (hx : (process_video_generation env gen0 req pn key).trace.get? i = some x)
    (hy : (process_video_generation env gen0 req pn key).trace.get? j = some y)
    (hterm : x.status.isTerminal = true) : y = x := by
  have h1 : ({ gen0 with status := GenerationStatus.processing } : Generation).status.isTerminal
      = false := rfl
  unfold process_video_generation at hx hy
  by_cases hs : env.submission.status = "failed"
  · simp only [if_pos hs] at hx hy
    exact two_elem_trace_stable _ _ i j hij x y hx hy h1 hterm
  · simp only [if_neg hs] at hx hy
    rcases poll_loop_trace_shape env req pn gen0.id key max_attempts 0
        { gen0 with status := GenerationStatus.processing } [{ gen0 with status := GenerationStatus.processing }]
      with ⟨htr, _⟩ | ⟨gN, htr, _, _, _⟩
    · rw [htr] at hx hy
      exact one_elem_trace_stable _ i x y hx h1 hterm
    · rw [htr] at hx hy
      exact two_elem_trace_stable _ _ i j hij x y hx hy h1 hterm

/-- C4 amended: the orchestrator never writes provider_job_id: the final
record and every committed snapshot keep the initial value (so the field
is trivially set at most once and never overwritten, but it is NOT set
after a successful submission — the remote job id lives only in memory
for polling; see provider_job_id_never_recorded). -/
theorem provider_job_id_unchanged (env : OrchestratorEnv) (gen0 : Generation)
    (req : VideoGenerationRequest) (pn key : String) :
    (process_video_generation env gen0 req pn key).final.provider_job_id = gen0.provider_job_id ∧
    ∀ x, x ∈ (process_video_generation env gen0 req pn key).trace →
      x.provider_job_id = gen0.provider_job_id := by
  unfold process_video_generation
  by_cases hs : env.submission.status = "failed"
  · simp only [if_pos hs]
    refine ⟨by trivial, ?_⟩
    intro x hx
    rcases List.mem_cons.mp hx with h | h
    · rw [h]
    · rcases List.mem_cons.mp h with h2 | h2
      · rw [h2]
      · simp at h2
  · simp only [if_neg hs]
    rcases poll_loop_trace_shape env req pn gen0.id key max_attempts 0
        { gen0 with status := GenerationStatus.processing }
        [{ gen0 with status := GenerationStatus.processing }]
      with ⟨htr, hfin⟩ | ⟨gN, htr, hfin, _, hpj⟩
    · rw [htr, hfin]
      refine ⟨rfl, ?_⟩
      intro x hx
      rcases List.mem_cons.mp hx with h | h
      · rw [h]
      · simp at h
    · rw [htr, hfin]
      refine ⟨hpj, ?_⟩
      intro x hx
      rcases List.mem_append.mp hx with h | h
      · rcases List.mem_cons.mp h with h2 | h2
        · rw [h2]
        · simp at h2
      · rcases List.mem_cons.mp h with h2 | h2
        · rw [h2]; exact hpj
        · simp at h2

/-- C7: the polling loop run is bounded by the fixed budget of 60
attempts (with the fixed 5-second sleep before each check), and when no
poll inside the budget reports a terminal normalized status the job is
transitioned to FAILED with the fixed timeout message after exactly 60
checks. -/
theorem polling_attempt_budget (env : OrchestratorEnv) (gen0 : Generation)
    (req : VideoGenerationRequest) (pn key : String) :
    max_attempts = 60 ∧ poll_interval_seconds = 5 ∧
    (process_video_generation env gen0 req pn key).attempts ≤ max_attempts ∧
    (env.submission.status ≠ "failed" →
      (∀ k, k < max_attempts →
        (env.polls k).status ≠ "completed" ∧ (env.polls k).status ≠ "failed") →
      (process_video_generation env gen0 req pn key).final.status = GenerationStatus.failed ∧
      (process_video_generation env gen0 req pn key).final.error_message
        = some "Generation timeout" ∧
      (process_video_generation env gen0 req pn key).attempts = max_attempts) := by
  refine ⟨rfl, rfl, ?_, ?_⟩
  · unfold process_video_generation
    by_cases hs : env.submission.status = "failed"
    · simp [hs]
    · simp only [if_neg hs]
      have := poll_loop_attempts_le env req pn gen0.id key max_attempts 0
        { gen0 with status := GenerationStatus.processing }
        [{ gen0 with status := GenerationStatus.processing }]
      omega
  · intro hs hall
    unfold process_video_generation
    simp only [if_neg hs]
    rw [poll_loop_timeout_run env req pn gen0.id key max_attempts 0
      { gen0 with status := GenerationStatus.processing }
      [{ gen0 with status := GenerationStatus.processing }]
      (fun k _ hk2 => hall k (by omega))]
    refine ⟨?_, ?_, ?_⟩ <;> trivial

/-- C2 amended: if the submission succeeds, the first N-1 polls report
"processing" and the Nth reports "completed" AND carries an artifact
URL (with N within the attempt budget), the download succeeds, and the
request carries a duration, then the run ends with the job COMPLETED
and the artifact location recorded. -/
theorem polling_completes_job (env : OrchestratorEnv) (gen0 : Generation)
    (req : VideoGenerationRequest) (pn key : String) (N : Nat) (u path : String) (d : Int)
    (hsub : env.submission.status ≠ "failed")
    (hN1 : 1 ≤ N) (hN : N ≤ max_attempts)
    (hpre : ∀ k, k < N - 1 → (env.polls k).status = "processing")
    (hfin : (env.polls (N - 1)).status = "completed")
    (hurl : (env.polls (N - 1)).video_url = some u)
    (hdl : env.dl u (gen0.id ++ ".mp4")
      (if pn = "openai" then some [("Authorization", "Bearer " ++ key)] else none) = .ok path)
    (hdur : req.duration = some d) :
    (process_video_generation env gen0 req pn key).final.status = GenerationStatus.completed ∧
    (process_video_generation env gen0 req pn key).final.video_path = some path := by
  unfold process_video_generation
  simp only [if_neg hsub]
  have h := poll_loop_completes env req pn gen0.id key u path d N max_attempts 0
    { gen0 with status := GenerationStatus.processing }
    [{ gen0 with status := GenerationStatus.processing }]
    hN1 hN (fun k _ hk2 => hpre k (by omega)) (by simpa using hfin) (by simpa using hurl)
    hdl hdur
  exact ⟨h.1, h.2.1⟩

/-- C10 amended: on the failed-submission, failed-poll, timeout, and
download-exception paths the FAILED transition changes only status and
error_message: cost, artifact location, dimensions, duration, generation
time and completion time keep their previous values.  (On an exception
raised AFTER the completion fields were assigned — the cost-computation
TypeError — the mutated fields are committed together with FAILED; see
failed_job_carries_artifact.) -/
theorem failed_transition_frame (env : OrchestratorEnv) (gen0 : Generation)
    (req : VideoGenerationRequest) (pn key : String)
    (hexit : (process_video_generation env gen0 req pn key).exitReason = .submitFailed ∨
             (process_video_generation env gen0 req pn key).exitReason = .pollFailed ∨
             (process_video_generation env gen0 req pn key).exitReason = .timeout ∨
             (process_video_generation env gen0 req pn key).exitReason = .boundaryDl) :
    (process_video_generation env gen0 req pn key).final.status = GenerationStatus.failed ∧
    (process_video_generation env gen0 req pn key).final.cost = gen0.cost ∧
    (process_video_generation env gen0 req pn key).final.video_url = gen0.video_url ∧
    (process_video_generation env gen0 req pn key).final.video_path = gen0.video_path ∧
    (process_video_generation env gen0 req pn key).final.width = gen0.width ∧
    (process_video_generation env gen0 req pn key).final.height = gen0.height ∧
    (process_video_generation env gen0 req pn key).final.duration_seconds = gen0.duration_seconds ∧
    (process_video_generation env gen0 req pn key).final.generation_time = gen0.generation_time ∧
    (process_video_generation env gen0 req pn key).final.completed_at = gen0.completed_at := by
  unfold process_video_generation at hexit ⊢
  by_cases hs : env.submission.status = "failed"
  · simp only [if_pos hs]
    refine ⟨?_, ?_, ?_, ?_, ?_, ?_, ?_, ?_, ?_⟩ <;> trivial
  · simp only [if_neg hs] at hexit ⊢
    obtain ⟨e, hfe⟩ := poll_loop_failed_frame env req pn gen0.id key max_attempts 0
      { gen0 with status := GenerationStatus.processing }
      [{ gen0 with status := GenerationStatus.processing }] hexit
    rw [hfe]
    refine ⟨?_, ?_, ?_, ?_, ?_, ?_, ?_, ?_, ?_⟩ <;> trivial

/-- A concrete queued job record used by the concrete runs below. -/
def gen0C : Generation :=
  { id := "gen_1", provider := "openai", model := "sora-2", prompt := "a cat",
    status := GenerationStatus.queued }

/-- A concrete generation request (model sora-2, default duration 5). -/
def rq0 : VideoGenerationRequest := { model := "sora-2", prompt := "a cat" }

/-- A concrete generation request with an explicitly null duration. -/
def rqNoDur : VideoGenerationRequest := { model := "sora-2", prompt := "a cat", duration := none }

/-- Download collaborator that succeeds, returning the storage path for
the requested filename, as VideoStorage.download_video does. -/
def dlOk : String → String → Option (List (String × String)) → Except String String :=
  fun _ fname _ => .ok ("/videos/" ++ fname)

/-- Environment whose submission fails outright. -/
def envSubmitFail : OrchestratorEnv :=
  { submission := { job_id := "", status := "failed", error := some "boom" },
    polls := fun _ => { job_id := "", status := "processing" },
    dl := dlOk, tStart := 0, tEnd := 0 }

/-- Environment whose submission succeeds and whose first poll reports
completed with an artifact URL. -/
def envOkC : OrchestratorEnv :=
  { submission := { job_id := "remote-123", status := "processing" },
    polls := fun _ => { job_id := "remote-123", status := "completed",
                        video_url := some "https://cdn.example/video" },
    dl := dlOk, tStart := 0, tEnd := 0 }

/-- Environment whose submission succeeds and whose first poll reports
completed WITHOUT an artifact URL. -/
def envNoUrl : OrchestratorEnv :=
  { submission := { job_id := "remote-123", status := "processing" },
    polls := fun _ => { job_id := "remote-123", status := "completed" },
    dl := dlOk, tStart := 0, tEnd := 0 }

/-- Environment whose polls always report "processing". -/
def envAllProcessing : OrchestratorEnv :=
  { submission := { job_id := "remote-123", status := "processing" },
    polls := fun _ => { job_id := "remote-123", status := "processing" },
    dl := dlOk, tStart := 0, tEnd := 0 }

/-- Environment whose first poll reports a failed generation. -/
def envPollFail : OrchestratorEnv :=
  { submission := { job_id := "remote-123", status := "processing" },
    polls := fun _ => { job_id := "remote-123", status := "failed", error := some "boom" },
    dl := dlOk, tStart := 0, tEnd := 0 }

/-- Environment whose first poll reports completed with an artifact URL
and with provider metadata lacking a "seconds" entry. -/
def envNoDur : OrchestratorEnv :=
  { submission := { job_id := "remote-123", status := "processing" },
    polls := fun _ => { job_id := "remote-123", status := "completed",
                        video_url := some "https://cdn.example/video",
                        metadata := some [("status", Json.str "completed")] },
    dl := dlOk, tStart := 0, tEnd := 0 }

/-- C2 counterexample: a poll outcome "completed" with NO artifact URL
makes the loop stop without any transition: the job remains PROCESSING,
not COMPLETED, and no artifact location is recorded. -/
theorem completed_without_url_stays_processing :
    (process_video_generation envNoUrl gen0C rq0 "openai" "k").final.status
      = GenerationStatus.processing ∧
    (process_video_generation envNoUrl gen0C rq0 "openai" "k").final.video_path = none ∧
    (process_video_generation envNoUrl gen0C rq0 "openai" "k").exitReason
      = ExitReason.completedNoUrl ∧
    GenerationStatus.processing ≠ GenerationStatus.completed :=
  ⟨rfl, rfl, rfl, by decide⟩

/-- Witness for polling_completes_job: N = 1, the single poll reports
completed with a URL, the download succeeds, and the job ends COMPLETED
with the downloaded path recorded. -/
theorem polling_completes_job_witness :
    envOkC.submission.status ≠ "failed" ∧ 1 ≤ 1 ∧ 1 ≤ max_attempts ∧
    rq0.duration = some 5 ∧
    (process_video_generation envOkC gen0C rq0 "openai" "k").final.status
      = GenerationStatus.completed ∧
    (process_video_generation envOkC gen0C rq0 "openai" "k").final.video_path
      = some "/videos/gen_1.mp4" := by
  have h := polling_completes_job envOkC gen0C rq0 "openai" "k" 1 "https://cdn.example/video"
    "/videos/gen_1.mp4" 5 (by decide) (le_refl 1) (by decide)
    (fun k hk => absurd hk (by omega)) rfl rfl rfl rfl
  exact ⟨by decide, le_refl 1, by decide, rfl, h.1, h.2⟩

/-- C3 counterexample: the pickup step overwrites even a terminal state:
a job that is already CANCELLED when the orchestrator picks it up is
committed as PROCESSING. -/
theorem pickup_overwrites_cancelled :
    ({ gen0C with status := GenerationStatus.cancelled } : Generation).status.isTerminal = true ∧
    (process_video_generation envSubmitFail
      { gen0C with status := GenerationStatus.cancelled } rq0 "openai" "k").trace.get? 0 =
      some { gen0C with status := GenerationStatus.processing } ∧
    GenerationStatus.processing ≠ GenerationStatus.cancelled :=
  ⟨rfl, rfl, by decide⟩

/-- Witness for no_transition_out_of_terminal at the terminal snapshot
of a concrete failed-submission run. -/
theorem no_transition_out_of_terminal_witness :
    (1:Nat) ≤ 1 ∧
    (process_video_generation envSubmitFail gen0C rq0 "openai" "k").trace.get? 1 =
      some { gen0C with status := GenerationStatus.failed, error_message := some "boom" } ∧
    ({ gen0C with status := GenerationStatus.failed, error_message := some "boom" } :
      Generation).status.isTerminal = true ∧
    ({ gen0C with status := GenerationStatus.failed, error_message := some "boom" } :
      Generation) = { gen0C with status := GenerationStatus.failed, error_message := some "boom" } :=
  ⟨le_refl 1, rfl, rfl,
   no_transition_out_of_terminal envSubmitFail gen0C rq0 "openai" "k" 1 1 (le_refl 1)
     _ _ rfl rfl rfl⟩

/-- C4 counterexample: after a successful submission returning remote
job id "remote-123" the run finishes with provider_job_id still unset —
the field is never written, contradicting the claim that it is set
immediately after successful submission. -/
theorem provider_job_id_never_recorded :
    envOkC.submission.status ≠ "failed" ∧
    envOkC.submission.job_id = "remote-123" ∧
    (process_video_generation envOkC gen0C rq0 "openai" "k").final.provider_job_id = none ∧
    (none : Option String) ≠ some "remote-123" :=
  ⟨by decide, rfl, rfl, by decide⟩

/-- Witness for provider_job_id_unchanged at the first committed
snapshot of a concrete run. -/
theorem provider_job_id_unchanged_witness :
    ({ gen0C with status := GenerationStatus.processing } : Generation) ∈
      (process_video_generation envSubmitFail gen0C rq0 "openai" "k").trace ∧
    ({ gen0C with status := GenerationStatus.processing } : Generation).provider_job_id
      = gen0C.provider_job_id :=
  ⟨List.Mem.head _,
   (provider_job_id_unchanged envSubmitFail gen0C rq0 "openai" "k").2 _ (List.Mem.head _)⟩

/-- Witness for polling_attempt_budget on a run whose polls never reach
a terminal status: the job ends FAILED with the timeout message. -/
theorem polling_attempt_budget_witness :
    envAllProcessing.submission.status ≠ "failed" ∧
    (process_video_generation envAllProcessing gen0C rq0 "openai" "k").final.status
      = GenerationStatus.failed ∧
    (process_video_generation envAllProcessing gen0C rq0 "openai" "k").final.error_message
      = some "Generation timeout" := by
  have h := (polling_attempt_budget envAllProcessing gen0C rq0 "openai" "k").2.2.2
    (by decide) (fun k _ => ⟨show ("processing" : String) ≠ "completed" by decide,
      show ("processing" : String) ≠ "failed" by decide⟩)
  exact ⟨by decide, h.1, h.2.1⟩

/-- C10 counterexample: a completed poll whose metadata lacks "seconds"
combined with a request whose duration is null makes the final cost
computation raise a TypeError AFTER the completion fields were already
assigned; the boundary handler then commits FAILED together with the
mutated fields, so the FAILED job carries an artifact location. -/
theorem failed_job_carries_artifact :
    (process_video_generation envNoDur gen0C rqNoDur "openai" "k").final.status
      = GenerationStatus.failed ∧
    (process_video_generation envNoDur gen0C rqNoDur "openai" "k").final.video_url
      = some "http://localhost:3001/videos/gen_1.mp4" ∧
    (process_video_generation envNoDur gen0C rqNoDur "openai" "k").exitReason
      = ExitReason.boundaryCost ∧
    gen0C.video_url = none :=
  ⟨rfl, rfl, rfl, rfl⟩

/-- Witness for failed_transition_frame on a concrete failed-poll run:
the job fails and its artifact/cost fields keep their initial (empty)
values. -/
theorem failed_transition_frame_witness :
    ((process_video_generation envPollFail gen0C rq0 "openai" "k").exitReason
        = ExitReason.submitFailed ∨
     (process_video_generation envPollFail gen0C rq0 "openai" "k").exitReason
        = ExitReason.pollFailed ∨
     (process_video_generation envPollFail gen0C rq0 "openai" "k").exitReason
        = ExitReason.timeout ∨
     (process_video_generation envPollFail gen0C rq0 "openai" "k").exitReason
        = ExitReason.boundaryDl) ∧
    (process_video_generation envPollFail gen0C rq0 "openai" "k").final.status
      = GenerationStatus.failed ∧
    (process_video_generation envPollFail gen0C rq0 "openai" "k").final.video_url
      = gen0C.video_url ∧
    (process_video_generation envPollFail gen0C rq0 "openai" "k").final.cost = gen0C.cost := by
  have h := failed_transition_frame envPollFail gen0C rq0 "openai" "k" (Or.inr (Or.inl rfl))
  exact ⟨Or.inr (Or.inl rfl), h.1, h.2.2.1, h.2.1⟩
